import Mathlib

/-!
Verification of the evaluation & capture pipeline of `scripts/run.py`
(instant-ngp command-line harness).

The Python script drives an external Renderer (`pyngp.Testbed`); the logic
verified here is the script's own orchestration: reference-image path
resolution, camera-pose extraction, color-space compositing order, the
metric accumulation/summary, the screenshot batch indices, and the
training-loop progress/termination state machine.

Functions imported by the script from `common.py` (`linear_to_srgb`,
`srgb_to_linear`, `mse2psnr`, `read_image`, `write_image`, `compute_error`)
are not part of the sources under verification; where a claim depends only
on how the script wires them together, they are taken as abstract function
parameters, never given a body of our own invention.
-/

namespace RunPy

/-! ### Path helpers (models of `os.path` behavior used by the script) -/

/-- Model of `os.path.join a b` for the cases exercised by the script:
an absolute `b` replaces `a`; joining onto the empty string returns `b`;
otherwise a single `/` separator is inserted unless `a` already ends
with one. -/
def pathJoin (a b : String) : String :=
  if b.data.headD ' ' = '/' then b
  else if a = "" then b
  else if a.data.getLastD ' ' = '/' then a ++ b
  else a ++ "/" ++ b

/-- Model of `os.path.basename`: the longest suffix containing no `/`. -/
def basename (p : String) : String :=
  String.mk ((p.data.reverse.takeWhile (fun c => c ≠ '/')).reverse)

/-- Python's `"." in p` for the one-character needle used by the script:
does the string contain a dot? -/
def hasDot (p : String) : Bool :=
  p.data.contains '.'

/-! ### Reference image path resolution (run.py lines 197–208)

```
p = frame["file_path"]
if "." not in p:
    p = p + ".png"
ref_fname = os.path.join(data_dir, p)
if not os.path.isfile(ref_fname):
    ref_fname = os.path.join(data_dir, p + ".png")
    if not os.path.isfile(ref_fname):
        ref_fname = os.path.join(data_dir, p + ".jpg")
        if not os.path.isfile(ref_fname):
            ref_fname = os.path.join(data_dir, p + ".jpeg")
            if not os.path.isfile(ref_fname):
                ref_fname = os.path.join(data_dir, p + ".exr")
```
`isfile` abstracts the state of the disk (`os.path.isfile`). -/
def resolveRefFname (isfile : String → Bool) (dataDir filePath : String) : String :=
  let p := if hasDot filePath then filePath else filePath ++ ".png"
  let f0 := pathJoin dataDir p
  if isfile f0 then f0
  else
    let f1 := pathJoin dataDir (p ++ ".png")
    if isfile f1 then f1
    else
      let f2 := pathJoin dataDir (p ++ ".jpg")
      if isfile f2 then f2
      else
        let f3 := pathJoin dataDir (p ++ ".jpeg")
        if isfile f3 then f3
        else pathJoin dataDir (p ++ ".exr")

/-- The disk state of the claim's scenario: exactly `frame_01.jpg` exists. -/
def onlyJpgOnDisk : String → Bool :=
  fun f => f = "frame_01.jpg"

/-! ### Camera pose extraction (run.py lines 214 and 256–257)

Both the evaluation flow and the screenshot flow pass
`np.matrix(frame["transform_matrix"])[:-1,:]` to
`testbed.set_nerf_camera_matrix`.  A matrix is a list of rows; numpy's
`[:-1,:]` keeps every row but the last, unconditionally. -/
def poseForFrame (m : List (List ℚ)) : List (List ℚ) :=
  m.dropLast

/-! ### Screenshot batch (run.py lines 246–262)

```
if not len(args.screenshot_frames):
    args.screenshot_frames = range(len(ref_transforms))
for idx in args.screenshot_frames:
    f = ref_transforms["frames"][int(idx)]
    ...
    outname = os.path.join(args.screenshot_dir, os.path.basename(f["file_path"]))
```
`ref_transforms` is the JSON object parsed from the transforms file, so
Python's `len(ref_transforms)` is its number of top-level keys. -/

/-- One frame entry of a transforms manifest. -/
structure FrameEntry where
  file_path : String
  transform_matrix : List (List ℚ)

/-- The transforms manifest as the script sees it: a parsed JSON object.
`numKeys` is the number of top-level keys (`camera_angle_x`, `frames`,
optional `w`, `h`, …), which is what Python's `len` returns on the dict. -/
structure TransformsManifest where
  numKeys : ℕ
  camera_angle_x : ℚ
  frames : List FrameEntry

/-- Frame indices actually iterated: the requested ones, or — when none
were requested — `range(len(ref_transforms))`, i.e. a range over the
manifest's *key count*. -/
def screenshotFrameIndices (requested : List ℕ) (m : TransformsManifest) : List ℕ :=
  if requested.length = 0 then List.range m.numKeys else requested

/-- Output file names written by the screenshot loop, in iteration order.
`ref_transforms["frames"][int(idx)]` raises `IndexError` when `idx` is out
of range, modelled by `none`. -/
def screenshotBatch (requested : List ℕ) (m : TransformsManifest)
    (outDir : String) : Option (List String) :=
  (screenshotFrameIndices requested m).mapM fun idx =>
    (m.frames.get? idx).map fun f => pathJoin outDir (basename f.file_path)

/-- A concrete manifest for the screenshot-batch scenario: four top-level
keys (`camera_angle_x`, `w`, `h`, `frames`) and two frames. -/
def twoFrameManifest : TransformsManifest :=
  { numKeys := 4
    camera_angle_x := 1
    frames := [⟨"train/r_0.png", [[1, 0, 0, 0], [0, 1, 0, 0], [0, 0, 1, 0], [0, 0, 0, 1]]⟩,
               ⟨"train/r_1.png", [[1, 0, 0, 1], [0, 1, 0, 0], [0, 0, 1, 0], [0, 0, 0, 1]]⟩] }

/-! ### Color-space compositing (run.py lines 210 and 216–218)

An image is a list of RGBA pixels (float32 in the script, modelled over
ℚ).  The two `common.py` transfer functions `linear_to_srgb` and
`srgb_to_linear` are outside the verified sources; the claims here are
about the order in which the script applies them and which channels they
touch, so they stay abstract parameters `l2s`, `s2l`. -/

/-- One RGBA pixel. -/
structure Pixel where
  r : ℚ
  g : ℚ
  b : ℚ
  a : ℚ

/-- `image[...,:3] = f(image[...,:3])`: apply `f` to the RGB channels
only, leaving alpha untouched. -/
def mapRGB (f : ℚ → ℚ) (p : Pixel) : Pixel :=
  ⟨f p.r, f p.g, f p.b, p.a⟩

/-- `image += (1.0 - image[...,3:4])`: numpy broadcasts `1 - alpha` over
all four channels, so the RGB channels gain `1 - a` and the alpha channel
becomes `a + (1 - a)`. -/
def addOneMinusAlpha (p : Pixel) : Pixel :=
  ⟨p.r + (1 - p.a), p.g + (1 - p.a), p.b + (1 - p.a), p.a + (1 - p.a)⟩

/-- Line 210: `ref_image += (1.0 - ref_image[...,3:4])` — the reference
image is composited as loaded, with no color-space conversion around the
addition. -/
def refComposite (img : List Pixel) : List Pixel :=
  img.map addOneMinusAlpha

/-- Lines 216–218:
```
image[...,:3] = linear_to_srgb(image[...,:3])
image += (1.0 - image[...,3:4])
image[...,:3] = srgb_to_linear(image[...,:3])
```
-/
def renderedComposite (l2s s2l : ℚ → ℚ) (img : List Pixel) : List Pixel :=
  let i1 := img.map (mapRGB l2s)
  let i2 := i1.map addOneMinusAlpha
  i2.map (mapRGB s2l)

/-- Follows the spec's words: compositing onto opaque white in linear
space — each RGB channel gains `1 - alpha` with no conversion applied,
and the result is opaque. -/
def specLinearWhiteComposite (p : Pixel) : Pixel :=
  ⟨p.r + (1 - p.a), p.g + (1 - p.a), p.b + (1 - p.a), 1⟩

/-- Follows the spec's words for the render path: RGB channels are
converted linear→sRGB, the composite `rgb' = rgb + (1 - alpha)` is applied
in sRGB space against the original alpha, and the RGB channels are
converted back to linear; the conversions never touch alpha, and the
result is opaque. -/
def specSrgbWhiteComposite (l2s s2l : ℚ → ℚ) (p : Pixel) : Pixel :=
  ⟨s2l (l2s p.r + (1 - p.a)), s2l (l2s p.g + (1 - p.a)), s2l (l2s p.b + (1 - p.a)), 1⟩

/-! ### Evaluation metric accumulation and summary (run.py lines 181–244)

Per-frame MSE comes from `compute_error("MSE", A, R)` and the PSNR mapping
from `mse2psnr`, both defined in `common.py` outside the verified sources;
the accumulation takes the per-frame MSE values as input and `mse2psnr` as
an abstract parameter `p2`. -/

/-- Running totals, lines 181–186:
`totmse = totpsnr = totssim = totcount = 0; minpsnr = 1000; maxpsnr = 0`. -/
structure ErrorAccumulator where
  totmse : ℚ
  totpsnr : ℚ
  totssim : ℚ
  totcount : ℕ
  minpsnr : ℚ
  maxpsnr : ℚ

/-- Initial accumulator values (lines 181–186). -/
def initAccumulator : ErrorAccumulator :=
  ⟨0, 0, 0, 0, 1000, 0⟩

/-- Line 230: `ssim = 0 # float(compute_error("SSIM",A,R))` — the SSIM
computation is commented out and the per-frame value is the constant 0. -/
def frameSSIM : ℚ := 0

/-- Lines 229–237: one frame's contribution to the running totals. -/
def accumFrame (p2 : ℚ → ℚ) (acc : ErrorAccumulator) (mse : ℚ) : ErrorAccumulator :=
  let ssim := frameSSIM
  let psnr := p2 mse
  { totssim := acc.totssim + ssim
    totmse := acc.totmse + mse
    totpsnr := acc.totpsnr + psnr
    minpsnr := if psnr < acc.minpsnr then psnr else acc.minpsnr
    maxpsnr := if psnr > acc.maxpsnr then psnr else acc.maxpsnr
    totcount := acc.totcount + 1 }

/-- Python's `totcount or 1`: `totcount` when nonzero, else `1`. -/
def orOne (n : ℕ) : ℕ :=
  if n = 0 then 1 else n

/-- The accumulator after the whole evaluation loop, given the per-frame
MSE values in frame order. -/
def runAccumulator (p2 : ℚ → ℚ) (mses : List ℚ) : ErrorAccumulator :=
  mses.foldl (accumFrame p2) initAccumulator

/-- Line 238: the value handed to `t.set_postfix(psnr = ...)` inside the
loop: `totpsnr/(totcount or 1)`. -/
def runningPostfixPsnr (acc : ErrorAccumulator) : ℚ :=
  acc.totpsnr / (orOne acc.totcount : ℚ)

/-- The aggregate statistics computed at lines 241–243. -/
structure EvalSummary where
  psnr_avgmse : ℚ
  psnr : ℚ
  ssim : ℚ
  minpsnr : ℚ
  maxpsnr : ℚ

/-- Lines 241–243:
```
psnr_avgmse = mse2psnr(totmse/(totcount or 1))
psnr = totpsnr/(totcount or 1)
ssim = totssim/(totcount or 1)
```
-/
def evalSummary (p2 : ℚ → ℚ) (mses : List ℚ) : EvalSummary :=
  let acc := runAccumulator p2 mses
  { psnr_avgmse := p2 (acc.totmse / (orOne acc.totcount : ℚ))
    psnr := acc.totpsnr / (orOne acc.totcount : ℚ)
    ssim := acc.totssim / (orOne acc.totcount : ℚ)
    minpsnr := acc.minpsnr
    maxpsnr := acc.maxpsnr }

/-- Line 244: `print(f"psnr {psnr} average, psnr range {minpsnr}-{maxpsnr},
ssim {ssim}")` — the values interpolated into the completion line, in
order of appearance. -/
def printedSummary (s : EvalSummary) : List ℚ :=
  [s.psnr, s.minpsnr, s.maxpsnr, s.ssim]

/-! ### Training loop (run.py lines 146–170)

```
old_training_step = 0
n_steps = args.n_steps
if n_steps < 0:
    n_steps = 100000

if n_steps > 0:
    with tqdm(...) as t:
        while testbed.frame():
            if testbed.want_repl():
                repl(testbed)
            if testbed.training_step >= n_steps:
                if args.gui:
                    testbed.shall_train = False
                else:
                    break
            if testbed.training_step < old_training_step or old_training_step == 0:
                old_training_step = 0
                t.reset()
            t.update(testbed.training_step - old_training_step)
            t.set_postfix(loss=testbed.loss)
            old_training_step = testbed.training_step
```
The external Renderer is observed through `testbed.frame()` and
`testbed.training_step`; a run is modelled by the list `obs` of
`training_step` values read on the iterations where `frame()` returned
true.  `t.update` arguments are collected in `deltas`. -/

/-- The loop-visible state: `old_training_step`, the `shall_train` flag,
the arguments passed to `t.update` so far, and whether `break` ran. -/
structure TrainState where
  oldStep : ℕ
  shallTrain : Bool
  deltas : List ℤ
  broke : Bool

/-- Line 131: `testbed.shall_train = args.train if args.gui else True`. -/
def initialShallTrain (gui train : Bool) : Bool :=
  if gui then train else true

/-- State before the loop: `old_training_step = 0` (line 146), no updates
issued, no break taken. -/
def initTrainState (s0 : Bool) : TrainState :=
  ⟨0, s0, [], false⟩

/-- One iteration body (lines 154–170) at observed step `cur`.  When
`training_step >= n_steps` in non-gui mode, `break` runs and the rest of
the body is skipped; in gui mode `shall_train` is cleared and the body
continues to the progress-bar update. -/
def trainIter (gui : Bool) (nSteps : ℤ) (st : TrainState) (cur : ℕ) : TrainState :=
  if nSteps ≤ (cur : ℤ) ∧ gui = false then
    { st with broke := true }
  else
    { oldStep := cur
      shallTrain := if nSteps ≤ (cur : ℤ) then false else st.shallTrain
      deltas := st.deltas ++
        [(cur : ℤ) - ((if cur < st.oldStep ∨ st.oldStep = 0 then 0 else st.oldStep : ℕ) : ℤ)]
      broke := st.broke }

/-- The `while testbed.frame():` loop over the observed steps; `break`
stops consuming further observations. -/
def trainLoopGo (gui : Bool) (nSteps : ℤ) : TrainState → List ℕ → TrainState
  | st, [] => st
  | st, cur :: rest =>
    let st1 := trainIter gui nSteps st cur
    if st1.broke then st1 else trainLoopGo gui nSteps st1 rest

/-- Lines 147–149: `n_steps = args.n_steps; if n_steps < 0: n_steps =
100000`. -/
def effectiveNSteps (n : ℤ) : ℤ :=
  if n < 0 then 100000 else n

/-- Lines 151–170: the loop runs only when `n_steps > 0`. -/
def runTrainingLoop (gui : Bool) (nSteps : ℤ) (s0 : Bool) (obs : List ℕ) : TrainState :=
  if 0 < nSteps then trainLoopGo gui nSteps (initTrainState s0) obs
  else initTrainState s0

end RunPy

/-- C2 (counterexample): a `transform_matrix` that is already 3x4 is *not*
passed through with all 3 rows intact — `[:-1,:]` strips its third row,
leaving only 2 rows. -/
theorem C2_three_row_matrix_truncated :
    RunPy.poseForFrame [[1, 0, 0, 5], [0, 1, 0, 6], [0, 0, 1, 7]]
      ≠ [[1, 0, 0, 5], [0, 1, 0, 6], [0, 0, 1, 7]]
    ∧ (RunPy.poseForFrame [[1, 0, 0, 5], [0, 1, 0, 6], [0, 0, 1, 7]]).length = 2 := by
  constructor <;> decide

/-- C2 (amended): the pose passed to `set_nerf_camera_matrix` is the
frame's matrix with its last row removed, whatever its height: a 4x4
matrix yields its top 3 rows, but an already-3x4 matrix is truncated to
its first 2 rows rather than passed through. -/
theorem C2_pose_drops_last_row (m : List (List ℚ)) :
    RunPy.poseForFrame m = m.dropLast
    ∧ (m.length = 4 → RunPy.poseForFrame m = m.take 3)
    ∧ (m.length = 3 → RunPy.poseForFrame m = m.take 2) := by
  refine ⟨rfl, fun h4 => ?_, fun h3 => ?_⟩
  · unfold RunPy.poseForFrame
    rw [List.dropLast_eq_take, h4]
  · unfold RunPy.poseForFrame
    rw [List.dropLast_eq_take, h3]

/-- C2 witness: the amended theorem evaluated on a concrete 4x4 matrix
and a concrete 3x4 matrix. -/
theorem C2_pose_drops_last_row_witness :
    RunPy.poseForFrame [[1, 0, 0, 0], [0, 1, 0, 0], [0, 0, 1, 0], [0, 0, 0, 1]]
      = [[1, 0, 0, 0], [0, 1, 0, 0], [0, 0, 1, 0]]
    ∧ RunPy.poseForFrame [[1, 0, 0, 0], [0, 1, 0, 0], [0, 0, 1, 0]]
      = [[1, 0, 0, 0], [0, 1, 0, 0]] := by
  constructor
  · have h := (C2_pose_drops_last_row
      [[1, 0, 0, 0], [0, 1, 0, 0], [0, 0, 1, 0], [0, 0, 0, 1]]).2.1 (by decide)
    simpa using h
  · have h := (C2_pose_drops_last_row
      [[1, 0, 0, 0], [0, 1, 0, 0], [0, 0, 1, 0]]).2.2 (by decide)
    simpa using h

/-- C4: with no explicit frame indices requested, the screenshot loop does
*not* iterate the manifest's frames.  It iterates
`range(len(ref_transforms))` — a range over the manifest's top-level *key
count*.  For a manifest with four keys and two frames the default indices
are `[0, 1, 2, 3]`, and `ref_transforms["frames"][2]` raises `IndexError`
before the batch completes. -/
theorem C4_default_indices_use_key_count :
    RunPy.screenshotFrameIndices [] RunPy.twoFrameManifest = [0, 1, 2, 3]
    ∧ RunPy.twoFrameManifest.frames.length = 2
    ∧ RunPy.screenshotBatch [] RunPy.twoFrameManifest "shots" = none := by
  refine ⟨by decide, by decide, ?_⟩
  rfl

/-- C1: the claim says that for `file_path = "frame_01"` with only
`frame_01.jpg` on disk the resolver probes `frame_01.png`, then selects
`frame_01.jpg`.  The code instead appends `.png` to the extensionless
path *before* the fallback chain, so every fallback extension is appended
to `frame_01.png`: the resolver probes `frame_01.png`, `frame_01.png.png`,
`frame_01.png.jpg`, `frame_01.png.jpeg` and settles on the nonexistent
`frame_01.png.exr`, never selecting `frame_01.jpg`. -/
theorem C1_resolver_never_finds_jpg :
    RunPy.resolveRefFname RunPy.onlyJpgOnDisk "" "frame_01" = "frame_01.png.exr"
    ∧ RunPy.resolveRefFname RunPy.onlyJpgOnDisk "" "frame_01" ≠ "frame_01.jpg" := by
  constructor <;> decide

/-- C7: the reference image is composited onto opaque white in linear
space (the per-channel addition of `1 - alpha` with no conversion), while
the rendered image follows the exact two-step order: RGB converted
linear→sRGB, the composite `rgb' = rgb + (1 - alpha)` applied in sRGB
space, RGB converted back to linear — with the conversions applied to the
RGB channels only. -/
theorem C7_composite_order (l2s s2l : ℚ → ℚ) (img : List RunPy.Pixel) :
    RunPy.refComposite img = img.map RunPy.specLinearWhiteComposite
    ∧ RunPy.renderedComposite l2s s2l img
      = img.map (RunPy.specSrgbWhiteComposite l2s s2l) := by
  constructor
  · rw [RunPy.refComposite]
    congr 1
    funext p
    simp only [RunPy.addOneMinusAlpha, RunPy.specLinearWhiteComposite,
      RunPy.Pixel.mk.injEq]
    exact ⟨trivial, trivial, trivial, by ring⟩
  · simp only [RunPy.renderedComposite, List.map_map]
    congr 1
    funext p
    simp only [Function.comp_apply, RunPy.mapRGB, RunPy.addOneMinusAlpha,
      RunPy.specSrgbWhiteComposite, RunPy.Pixel.mk.injEq]
    exact ⟨trivial, trivial, trivial, by ring⟩

/-! ### Helper lemmas on the accumulator -/

/-- The `totssim` total is never changed by the fold: each frame adds the
constant `frameSSIM = 0`. -/
theorem foldl_accumFrame_totssim (p2 : ℚ → ℚ) (mses : List ℚ) :
    ∀ acc : RunPy.ErrorAccumulator,
      (mses.foldl (RunPy.accumFrame p2) acc).totssim = acc.totssim := by
  induction mses with
  | nil => intro acc; rfl
  | cons m rest ih =>
    intro acc
    rw [List.foldl_cons, ih]
    simp [RunPy.accumFrame, RunPy.frameSSIM]

/-- The `totcount` total counts the frames folded in. -/
theorem foldl_accumFrame_totcount (p2 : ℚ → ℚ) (mses : List ℚ) :
    ∀ acc : RunPy.ErrorAccumulator,
      (mses.foldl (RunPy.accumFrame p2) acc).totcount = acc.totcount + mses.length := by
  induction mses with
  | nil => intro acc; simp
  | cons m rest ih =>
    intro acc
    rw [List.foldl_cons, ih]
    simp [RunPy.accumFrame]
    omega

/-- `orOne` is always positive. -/
theorem orOne_pos (n : ℕ) : 0 < RunPy.orOne n := by
  unfold RunPy.orOne
  split <;> omega

/-- C3 (counterexample): the claim says the output summary reports both
`mean_psnr` and `psnr_of_mean_mse`.  On a concrete two-frame run (per-frame
MSEs 0 and 2, with a nonlinear PSNR mapping) the computed
`psnr_of_mean_mse` appears nowhere among the values interpolated into the
printed completion line `psnr ... average, psnr range ...-..., ssim ...`:
the script computes `psnr_avgmse` at line 241 and never prints it. -/
theorem C3_avgmse_not_printed :
    (RunPy.evalSummary (fun x => x * x) [0, 2]).psnr_avgmse ∉
      RunPy.printedSummary (RunPy.evalSummary (fun x => x * x) [0, 2]) := by
  norm_num [RunPy.printedSummary, RunPy.evalSummary, RunPy.runAccumulator,
    RunPy.initAccumulator, RunPy.accumFrame, RunPy.frameSSIM, RunPy.orOne]

/-- C3 (amended): both statistics are computed by the summary and are in
general distinct, but the printed completion line reports only the mean of
per-frame PSNR values (with the PSNR range and mean SSIM): its content is
unchanged by any change to `psnr_of_mean_mse`, while `mean_psnr` always
appears in it. -/
theorem C3_summary_prints_mean_psnr_only :
    (∀ (s : RunPy.EvalSummary) (x : ℚ),
        RunPy.printedSummary { s with psnr_avgmse := x } = RunPy.printedSummary s)
    ∧ (∀ (p2 : ℚ → ℚ) (mses : List ℚ),
        (RunPy.evalSummary p2 mses).psnr ∈
          RunPy.printedSummary (RunPy.evalSummary p2 mses))
    ∧ (RunPy.evalSummary (fun x => x * x) [0, 2]).psnr_avgmse
        ≠ (RunPy.evalSummary (fun x => x * x) [0, 2]).psnr := by
  refine ⟨fun s x => rfl, fun p2 mses => ?_, ?_⟩
  · simp [RunPy.printedSummary]
  · norm_num [RunPy.evalSummary, RunPy.runAccumulator, RunPy.initAccumulator,
      RunPy.accumFrame, RunPy.frameSSIM, RunPy.orOne]

/-- C8: the per-frame SSIM contribution is the constant 0 — a disabled
stub, not a computation — each frame adds exactly this constant to
`totssim`, and the reported mean SSIM is 0 for every run, whatever the
PSNR mapping and however many frames there are. -/
theorem C8_ssim_is_stub_zero :
    RunPy.frameSSIM = 0
    ∧ (∀ (p2 : ℚ → ℚ) (acc : RunPy.ErrorAccumulator) (mse : ℚ),
        (RunPy.accumFrame p2 acc mse).totssim = acc.totssim + RunPy.frameSSIM)
    ∧ (∀ (p2 : ℚ → ℚ) (mses : List ℚ), (RunPy.evalSummary p2 mses).ssim = 0) := by
  refine ⟨rfl, fun p2 acc mse => rfl, fun p2 mses => ?_⟩
  show (RunPy.runAccumulator p2 mses).totssim / _ = 0
  rw [RunPy.runAccumulator, foldl_accumFrame_totssim]
  show (0 : ℚ) / _ = 0
  exact zero_div _

/-- C10: every aggregate division in the summary (lines 241–243) and in
the running postfix (line 238) divides by `totcount or 1`, which is
positive for every accumulator state, so the summary is total — in
particular the empty frame sequence yields a fully defined summary with
all divisions taken by 1. -/
theorem C10_summary_never_divides_by_zero :
    (∀ n : ℕ, 0 < RunPy.orOne n)
    ∧ (∀ acc : RunPy.ErrorAccumulator, ((RunPy.orOne acc.totcount : ℕ) : ℚ) ≠ 0)
    ∧ (∀ (p2 : ℚ → ℚ) (mses : List ℚ),
        (RunPy.runAccumulator p2 mses).totcount = mses.length)
    ∧ (∀ p2 : ℚ → ℚ, RunPy.evalSummary p2 [] = ⟨p2 0, 0, 0, 1000, 0⟩) := by
  refine ⟨orOne_pos, fun acc => ?_, fun p2 mses => ?_, fun p2 => ?_⟩
  · exact Nat.cast_ne_zero.mpr (orOne_pos acc.totcount).ne'
  · rw [RunPy.runAccumulator, foldl_accumFrame_totcount]
    simp [RunPy.initAccumulator]
  · simp [RunPy.evalSummary, RunPy.runAccumulator, RunPy.initAccumulator, RunPy.orOne]

/-! ### Helper lemmas on the training loop -/

/-- One non-breaking iteration appends either a delta ≥ 0 or nothing. -/
theorem trainIter_deltas_charn (gui : Bool) (nSteps : ℤ)
    (st : RunPy.TrainState) (cur : ℕ) :
    (RunPy.trainIter gui nSteps st cur).deltas = st.deltas
    ∨ ∃ d : ℤ, 0 ≤ d ∧ (RunPy.trainIter gui nSteps st cur).deltas = st.deltas ++ [d] := by
  unfold RunPy.trainIter
  split
  · left; rfl
  · right
    refine ⟨_, ?_, rfl⟩
    by_cases h : cur < st.oldStep ∨ st.oldStep = 0
    · rw [if_pos h]; omega
    · rw [if_neg h]; push_neg at h; omega

/-- In gui mode the break branch is never taken: one iteration keeps
`broke` and sets `shall_train` to false when the step limit is reached. -/
theorem trainIter_gui_eq (nSteps : ℤ) (st : RunPy.TrainState) (cur : ℕ) :
    RunPy.trainIter true nSteps st cur =
      { oldStep := cur
        shallTrain := if nSteps ≤ (cur : ℤ) then false else st.shallTrain
        deltas := st.deltas ++
          [(cur : ℤ) - ((if cur < st.oldStep ∨ st.oldStep = 0 then 0 else st.oldStep : ℕ) : ℤ)]
        broke := st.broke } := by
  unfold RunPy.trainIter
  rw [if_neg (by simp)]

/-- In non-gui mode a qualifying step takes the break branch. -/
theorem trainIter_nogui_break (nSteps : ℤ) (st : RunPy.TrainState) (cur : ℕ)
    (h : nSteps ≤ (cur : ℤ)) :
    RunPy.trainIter false nSteps st cur = { st with broke := true } := by
  unfold RunPy.trainIter
  rw [if_pos ⟨h, rfl⟩]

/-- In non-gui mode a non-qualifying step leaves `broke` unchanged. -/
theorem trainIter_nogui_no_break (nSteps : ℤ) (st : RunPy.TrainState) (cur : ℕ)
    (h : ¬ nSteps ≤ (cur : ℤ)) :
    (RunPy.trainIter false nSteps st cur).broke = st.broke := by
  unfold RunPy.trainIter
  rw [if_neg (by simp [h])]

/-- All `t.update` arguments produced by the loop are nonnegative, given
that the ones already recorded are. -/
theorem trainLoopGo_deltas_nonneg (gui : Bool) (nSteps : ℤ) :
    ∀ (obs : List ℕ) (st : RunPy.TrainState),
      (∀ d ∈ st.deltas, 0 ≤ d) →
      ∀ d ∈ (RunPy.trainLoopGo gui nSteps st obs).deltas, 0 ≤ d := by
  intro obs
  induction obs with
  | nil => intro st h; exact h
  | cons cur rest ih =>
    intro st h
    have hst1 : ∀ d ∈ (RunPy.trainIter gui nSteps st cur).deltas, 0 ≤ d := by
      rcases trainIter_deltas_charn gui nSteps st cur with heq | ⟨d0, hd0, heq⟩
      · rw [heq]; exact h
      · rw [heq]
        intro d hd
        rcases List.mem_append.1 hd with h1 | h1
        · exact h d h1
        · rw [List.mem_singleton.1 h1]; exact hd0
    simp only [RunPy.trainLoopGo]
    split
    · exact hst1
    · exact ih _ hst1

/-- Once `broke` is false it stays false in gui mode: the gui loop never
terminates through the step limit. -/
theorem trainLoopGo_gui_never_breaks (nSteps : ℤ) :
    ∀ (obs : List ℕ) (st : RunPy.TrainState), st.broke = false →
      (RunPy.trainLoopGo true nSteps st obs).broke = false := by
  intro obs
  induction obs with
  | nil => intro st h; exact h
  | cons cur rest ih =>
    intro st h
    have hb : (RunPy.trainIter true nSteps st cur).broke = false := by
      rw [trainIter_gui_eq]; exact h
    simp only [RunPy.trainLoopGo]
    rw [hb]
    simp only [Bool.false_eq_true, if_false]
    exact ih _ hb

/-- A cleared `shall_train` flag is never set again by the loop. -/
theorem trainLoopGo_gui_shall_preserved (nSteps : ℤ) :
    ∀ (obs : List ℕ) (st : RunPy.TrainState), st.shallTrain = false →
      (RunPy.trainLoopGo true nSteps st obs).shallTrain = false := by
  intro obs
  induction obs with
  | nil => intro st h; exact h
  | cons cur rest ih =>
    intro st h
    have hs : (RunPy.trainIter true nSteps st cur).shallTrain = false := by
      rw [trainIter_gui_eq]
      simp only [h, ite_self]
    simp only [RunPy.trainLoopGo]
    split
    · exact hs
    · exact ih _ hs

/-- In gui mode, once some observed step reaches the limit, the loop ends
with `shall_train` cleared. -/
theorem trainLoopGo_gui_clears_shall (nSteps : ℤ) :
    ∀ (obs : List ℕ) (st : RunPy.TrainState), st.broke = false →
      (∃ x ∈ obs, nSteps ≤ (x : ℤ)) →
      (RunPy.trainLoopGo true nSteps st obs).shallTrain = false := by
  intro obs
  induction obs with
  | nil =>
    intro st _ hex
    rcases hex with ⟨x, hx, _⟩
    cases hx
  | cons cur rest ih =>
    intro st hbr hex
    have hb : (RunPy.trainIter true nSteps st cur).broke = false := by
      rw [trainIter_gui_eq]; exact hbr
    simp only [RunPy.trainLoopGo]
    rw [hb]
    simp only [Bool.false_eq_true, if_false]
    rcases hex with ⟨x, hx, hq⟩
    rcases List.mem_cons.1 hx with rfl | hx'
    · apply trainLoopGo_gui_shall_preserved
      rw [trainIter_gui_eq]
      simp only [if_pos hq]
    · exact ih _ hb ⟨x, hx', hq⟩

/-- In non-gui mode, once some observed step reaches the limit, the loop
takes the break. -/
theorem trainLoopGo_nogui_breaks (nSteps : ℤ) :
    ∀ (obs : List ℕ) (st : RunPy.TrainState), st.broke = false →
      (∃ x ∈ obs, nSteps ≤ (x : ℤ)) →
      (RunPy.trainLoopGo false nSteps st obs).broke = true := by
  intro obs
  induction obs with
  | nil =>
    intro st _ hex
    rcases hex with ⟨x, hx, _⟩
    cases hx
  | cons cur rest ih =>
    intro st hbr hex
    by_cases hc : nSteps ≤ (cur : ℤ)
    · have h1 : (RunPy.trainIter false nSteps st cur).broke = true := by
        rw [trainIter_nogui_break nSteps st cur hc]
      simp only [RunPy.trainLoopGo]
      rw [h1]
      simp only [if_true]
      exact h1
    · have h1 : (RunPy.trainIter false nSteps st cur).broke = false := by
        rw [trainIter_nogui_no_break nSteps st cur hc]; exact hbr
      simp only [RunPy.trainLoopGo]
      rw [h1]
      simp only [Bool.false_eq_true, if_false]
      rcases hex with ⟨x, hx, hq⟩
      rcases List.mem_cons.1 hx with rfl | hx'
      · exact absurd hq hc
      · exact ih _ h1 ⟨x, hx', hq⟩

/-- C5: for every sequence of observed raw step counts, every argument the
loop passes to `t.update` is ≥ 0; and whenever the current step is below
the previously observed one, or the previous one is 0, the body resets the
baseline to zero before accumulating, so the recorded increment is the
full current step — a mid-run counter reset never produces a negative
increment. -/
theorem C5_progress_updates_nonneg :
    (∀ (gui : Bool) (nSteps : ℤ) (s0 : Bool) (obs : List ℕ) (d : ℤ),
        d ∈ (RunPy.runTrainingLoop gui nSteps s0 obs).deltas → 0 ≤ d)
    ∧ (∀ (gui : Bool) (nSteps : ℤ) (st : RunPy.TrainState) (cur : ℕ),
        ¬(nSteps ≤ (cur : ℤ) ∧ gui = false) →
        (cur < st.oldStep ∨ st.oldStep = 0) →
        (RunPy.trainIter gui nSteps st cur).deltas = st.deltas ++ [(cur : ℤ)]) := by
  constructor
  · intro gui nSteps s0 obs d hd
    revert hd
    unfold RunPy.runTrainingLoop
    split
    · intro hd
      refine trainLoopGo_deltas_nonneg gui nSteps obs _ ?_ d hd
      intro d' hd'
      cases hd'
    · intro hd
      cases hd
  · intro gui nSteps st cur h1 h2
    unfold RunPy.trainIter
    rw [if_neg h1]
    rw [if_pos h2]
    simp

/-- C5 witness: on the spec's scenario `[5, 8, 8, 2, 2, 9]` the recorded
increment 5 is nonnegative, and a reset iteration (current step 2 after
previous step 8) accumulates the full current step from a zero baseline. -/
theorem C5_progress_updates_nonneg_witness :
    ((5 : ℤ) ∈ (RunPy.runTrainingLoop false 100 true [5, 8, 8, 2, 2, 9]).deltas
      ∧ (0 : ℤ) ≤ 5)
    ∧ (RunPy.trainIter true 100 ⟨8, true, [], false⟩ 2).deltas = [] ++ [(2 : ℤ)] :=
  ⟨⟨by decide, C5_progress_updates_nonneg.1 false 100 true [5, 8, 8, 2, 2, 9] 5 (by decide)⟩,
   C5_progress_updates_nonneg.2 true 100 ⟨8, true, [], false⟩ 2 (by decide) (by decide)⟩

/-- C6: when the step limit is positive and some observed step reaches it,
the non-interactive loop terminates through `break`, while the interactive
(gui) loop never breaks and instead ends with `shall_train` cleared; with
a step limit of 0 the loop body is never entered. -/
theorem C6_step_limit_exit :
    (∀ (nSteps : ℤ) (train : Bool) (obs : List ℕ),
        0 < nSteps → (∃ x ∈ obs, nSteps ≤ (x : ℤ)) →
        (RunPy.runTrainingLoop false nSteps (RunPy.initialShallTrain false train) obs).broke
          = true)
    ∧ (∀ (nSteps : ℤ) (train : Bool) (obs : List ℕ),
        (RunPy.runTrainingLoop true nSteps (RunPy.initialShallTrain true train) obs).broke
          = false)
    ∧ (∀ (nSteps : ℤ) (train : Bool) (obs : List ℕ),
        0 < nSteps → (∃ x ∈ obs, nSteps ≤ (x : ℤ)) →
        (RunPy.runTrainingLoop true nSteps (RunPy.initialShallTrain true train) obs).shallTrain
          = false)
    ∧ (∀ (gui s0 : Bool) (obs : List ℕ),
        RunPy.runTrainingLoop gui 0 s0 obs = RunPy.initTrainState s0) := by
  refine ⟨fun nSteps train obs hpos hex => ?_, fun nSteps train obs => ?_,
    fun nSteps train obs hpos hex => ?_, fun gui s0 obs => rfl⟩
  · unfold RunPy.runTrainingLoop
    rw [if_pos hpos]
    exact trainLoopGo_nogui_breaks nSteps obs _ rfl hex
  · unfold RunPy.runTrainingLoop
    split
    · exact trainLoopGo_gui_never_breaks nSteps obs _ rfl
    · rfl
  · unfold RunPy.runTrainingLoop
    rw [if_pos hpos]
    exact trainLoopGo_gui_clears_shall nSteps obs _ rfl hex

/-- C6 witness: with limit 5 and observed steps `[3, 7]`, the
non-interactive loop breaks and the interactive loop clears
`shall_train`. -/
theorem C6_step_limit_exit_witness :
    (RunPy.runTrainingLoop false 5 (RunPy.initialShallTrain false true) [3, 7]).broke = true
    ∧ (RunPy.runTrainingLoop true 5 (RunPy.initialShallTrain true true) [3, 7]).shallTrain
        = false :=
  ⟨C6_step_limit_exit.1 5 true [3, 7] (by decide) ⟨7, by decide, by decide⟩,
   C6_step_limit_exit.2.2.1 5 true [3, 7] (by decide) ⟨7, by decide, by decide⟩⟩

/-- C9: a negative requested step count (the default `-1`) is replaced by
exactly 100000 before the loop, and a requested step count of exactly 0
leaves the loop body unentered: the loop state is returned untouched. -/
theorem C9_default_and_zero_steps :
    (∀ n : ℤ, n < 0 → RunPy.effectiveNSteps n = 100000)
    ∧ RunPy.effectiveNSteps 0 = 0
    ∧ (∀ (gui s0 : Bool) (obs : List ℕ),
        RunPy.runTrainingLoop gui (RunPy.effectiveNSteps 0) s0 obs
          = RunPy.initTrainState s0) := by
  refine ⟨fun n h => ?_, rfl, fun gui s0 obs => rfl⟩
  unfold RunPy.effectiveNSteps
  rw [if_pos h]

/-- C9 witness: the default `-1` yields a limit of 100000, and a limit of
0 performs no iteration on a concrete observation list. -/
theorem C9_default_and_zero_steps_witness :
    RunPy.effectiveNSteps (-1) = 100000
    ∧ RunPy.runTrainingLoop true (RunPy.effectiveNSteps 0) false [4, 5]
        = RunPy.initTrainState false :=
  ⟨C9_default_and_zero_steps.1 (-1) (by decide),
   C9_default_and_zero_steps.2.2 true false [4, 5]⟩
